import Mathlib

/-!
Verification development for the `qgis-flood` repository
(`src/add_point.py` and `src/level.py`).

The development shallowly embeds the two scripts' domain logic:

* base-elevation extraction from the first feature of a point layer
  (`WaterLevelDialog.get_base_elevation_from_point`, `src/level.py:275-311`);
* the raster threshold predicate built at `src/level.py:64`;
* the four-stage polygon pipeline `create_water_level_polygon`
  (`src/level.py:26-158`) with its file and project-layer effects;
* the point-layer creator `create_point_layer` (`src/add_point.py:160-249`);
* the Python path manipulations (`os.path.basename`, `os.path.splitext`,
  `os.path.join`, `str.replace`) that build the pipeline's artifact paths.

Numbers are modelled as `ℚ` (the scripts only store, compare and add the
user-entered values; no float rounding is exercised), with a separate `nan`
marker for the one NaN check in the source.  Paths are `List Char`.
External geoprocessing operations are opaque collaborators: each either
succeeds or raises, which the model reflects with per-operation success
flags, and the two operations whose outputs the scripts inspect
(`selectbylocation` semantics, shapefile sidecar creation) are modelled
from the spec's stated contracts (§4.2).
-/

/-- Wkb geometry types relevant to `get_base_elevation_from_point`:
the source checks membership in `[Point25D, PointZ, PointZM]`
(`src/level.py:291-295`). -/
inductive WkbType where
  | point
  | pointZ
  | pointM
  | pointZM
  | point25D
deriving DecidableEq, Repr

/-- A floating-point value as the scripts use it: either NaN or an exact
numeric value.  The only float-specific behaviour the source exercises is
the NaN self-inequality test `vertex.z() != vertex.z()` (`src/level.py:298`). -/
inductive FloatVal where
  | nan
  | val (q : ℚ)
deriving DecidableEq, Repr

/-- A point feature's geometry: emptiness flag (`geometry.isEmpty()`),
wkb type (`geometry.wkbType()`), planar coordinates, and the Z of its first
vertex (`geometry.vertexAt(0).z()`). -/
structure Geometry where
  isEmpty : Bool
  wkbType : WkbType
  x : ℚ
  y : ℚ
  vertexZ : FloatVal
deriving DecidableEq, Repr

/-- A vector feature: geometry plus named attributes.  An entry
`(name, none)` is a field that is present but NULL; an absent name is a
field the feature does not have. -/
structure Feature where
  geometry : Geometry
  attrs : List (String × Option ℚ)
deriving DecidableEq, Repr

/-- A point vector layer: its ordered features (`layer.getFeatures()`). -/
structure PointLayer where
  features : List Feature
deriving DecidableEq, Repr

/-- Errors raised by `get_base_elevation_from_point` (`src/level.py:277-311`),
named as in the spec (§7): each is a distinct `ValueError` in the source. -/
inductive ExtractError where
  | emptyInput
  | emptyGeometry
  | nanZ
  | missingElevation
deriving DecidableEq, Repr

/-- The attribute value of field `name` on feature `f`:
`none` if the field is absent, `some none` if present but NULL,
`some (some v)` if present with value `v`
(models `first_feature[field_name]` guarded by the field-name membership
test at `src/level.py:304`). -/
def Feature.attrValue (f : Feature) (name : String) : Option (Option ℚ) :=
  (f.attrs.find? (fun p => p.1 == name)).map Prod.snd

/-- The fixed attribute priority order probed at `src/level.py:303`. -/
def elevationFieldNames : List String := ["z", "Z", "elevation", "elev", "height"]

/-- The attribute probing loop of `src/level.py:303-307`: return the first
candidate field that is present and non-NULL; otherwise keep probing. -/
def probeAttrs : List String → Feature → Option ℚ
  | [], _ => none
  | n :: ns, f =>
    match f.attrValue n with
    | some (some v) => some v
    | _ => probeAttrs ns f

/-- The wkb types treated as carrying a Z coordinate (`src/level.py:291-295`). -/
def zWkbTypes : List WkbType := [WkbType.point25D, WkbType.pointZ, WkbType.pointZM]

/-- Elevation extraction from one feature: the body of
`get_base_elevation_from_point` after the first feature has been obtained
(`src/level.py:282-311`). -/
def baseElevationOfFeature (f : Feature) : Except ExtractError ℚ :=
  if f.geometry.isEmpty then
    .error .emptyGeometry
  else if f.geometry.wkbType ∈ zWkbTypes then
    match f.geometry.vertexZ with
    | .nan => .error .nanZ
    | .val q => .ok q
  else
    match probeAttrs elevationFieldNames f with
    | some v => .ok v
    | none => .error .missingElevation

/-- `WaterLevelDialog.get_base_elevation_from_point` (`src/level.py:275-311`):
fail on an empty layer, otherwise extract from the first feature. -/
def get_base_elevation_from_point (layer : PointLayer) : Except ExtractError ℚ :=
  match layer.features with
  | [] => .error .emptyInput
  | f :: _ => baseElevationOfFeature f

/-- Pointwise semantics of the raster-calculator expression built at
`src/level.py:64`: `"{dem_name}.tif@1" < ({base_elevation}+{level})` — a DEM
cell is flagged inundated exactly when its value is strictly below
`base_elevation + level`. -/
def inundated (demValue baseElevation floodLevel : ℚ) : Bool :=
  demValue < baseElevation + floodLevel

/-- `probeAttrs` yields nothing when every candidate field is absent or NULL. -/
theorem probeAttrs_eq_none (ns : List String) (f : Feature)
    (h : ∀ n ∈ ns, f.attrValue n = none ∨ f.attrValue n = some none) :
    probeAttrs ns f = none := by
  induction ns with
  | nil => rfl
  | cons n ns ih =>
    have hn := h n (List.mem_cons_self ..)
    have hns : ∀ m ∈ ns, f.attrValue m = none ∨ f.attrValue m = some none :=
      fun m hm => h m (List.mem_cons_of_mem _ hm)
    rcases hn with hn | hn <;> simp [probeAttrs, hn, ih hns]

/-- C1: when the first feature's geometry is non-empty, carries a
Z-typed geometry and its Z value is a genuine number, extraction returns
exactly that value — the attributes of the feature are arbitrary and play
no role. -/
theorem c1_geometry_z_priority (l : PointLayer) (f : Feature) (q : ℚ)
    (hhead : l.features.head? = some f)
    (hne : f.geometry.isEmpty = false)
    (hz : f.geometry.wkbType ∈ zWkbTypes)
    (hval : f.geometry.vertexZ = FloatVal.val q) :
    get_base_elevation_from_point l = .ok q := by
  rcases hfl : l.features with _ | ⟨f0, rest⟩
  · rw [hfl] at hhead; exact absurd hhead (by simp)
  · rw [hfl] at hhead
    have hf0 : f0 = f := by simpa using hhead
    subst hf0
    simp [get_base_elevation_from_point, hfl, baseElevationOfFeature, hne, hz, hval]

/-- Witness for C1: a PointZ feature with Z = 42 and conflicting `z` and
`elevation` attributes still yields the geometry Z. -/
theorem c1_geometry_z_priority_witness :
    get_base_elevation_from_point
      ⟨[⟨⟨false, WkbType.pointZ, 0, 0, FloatVal.val 42⟩,
         [("z", some 1), ("elevation", some 2)]⟩]⟩ = .ok 42 :=
  c1_geometry_z_priority _ _ 42 rfl rfl (by decide) rfl

/-- C2: when the first feature's geometry is non-empty but 2D-only, and the
ordered attribute probe finds a first present-and-non-null candidate value,
extraction returns exactly that value. -/
theorem c2_attribute_priority (l : PointLayer) (f : Feature) (v : ℚ)
    (hhead : l.features.head? = some f)
    (hne : f.geometry.isEmpty = false)
    (h2d : f.geometry.wkbType ∉ zWkbTypes)
    (hprobe : probeAttrs elevationFieldNames f = some v) :
    get_base_elevation_from_point l = .ok v := by
  rcases hfl : l.features with _ | ⟨f0, rest⟩
  · rw [hfl] at hhead; exact absurd hhead (by simp)
  · rw [hfl] at hhead
    have hf0 : f0 = f := by simpa using hhead
    subst hf0
    simp [get_base_elevation_from_point, hfl, baseElevationOfFeature, hne, h2d, hprobe]

/-- Witness for C2, the spec's own example: a 2D point with
`elevation = 12.5` and `height = 9.0` yields `12.5` — the earlier name in
the priority order wins. -/
theorem c2_attribute_priority_witness :
    get_base_elevation_from_point
      ⟨[⟨⟨false, WkbType.point, 0, 0, FloatVal.nan⟩,
         [("elevation", some 12.5), ("height", some 9)]⟩]⟩ = .ok 12.5 :=
  c2_attribute_priority _ _ 12.5 rfl rfl (by decide) rfl

/-- C3: a cell is flagged inundated iff its DEM value is strictly below
`base_elevation + flood_level`; with base 88.86 and flood level 10.0 the
threshold is 98.86: a 95.0 cell is flagged, a 100.0 cell is not. -/
theorem c3_threshold_predicate :
    (∀ d b l : ℚ, inundated d b l = true ↔ d < b + l) ∧
    (∀ d : ℚ, inundated d 88.86 10 = true ↔ d < 98.86) ∧
    inundated 95 88.86 10 = true ∧ inundated 100 88.86 10 = false := by
  refine ⟨fun d b l => by simp [inundated], fun d => ?_, ?_, ?_⟩ <;>
    norm_num [inundated]

/-- C5: the threshold predicate is monotonic in the flood level — a cell
flagged at level `L` stays flagged at any higher level `L'`. -/
theorem c5_monotone_flood_level (d b L L' : ℚ)
    (h : inundated d b L = true) (hL : L < L') :
    inundated d b L' = true := by
  simp only [inundated, decide_eq_true_eq] at h ⊢
  linarith

/-- Witness for C5: cell 90 with base 88 is flagged at level 5 and hence
also at level 7. -/
theorem c5_monotone_flood_level_witness : inundated 90 88 7 = true :=
  c5_monotone_flood_level 90 88 5 7 (by norm_num [inundated]) (by norm_num)

/-- C6: extraction fails with the empty-input error on a layer with no
features, and with the missing-elevation error when the first feature has a
non-empty 2D-only geometry and each of the five candidate fields is either
absent or NULL. -/
theorem c6_error_cases :
    (∀ l : PointLayer, l.features = [] →
      get_base_elevation_from_point l = .error .emptyInput) ∧
    (∀ (l : PointLayer) (f : Feature), l.features.head? = some f →
      f.geometry.isEmpty = false →
      f.geometry.wkbType ∉ zWkbTypes →
      (∀ n ∈ elevationFieldNames,
        f.attrValue n = none ∨ f.attrValue n = some none) →
      get_base_elevation_from_point l = .error .missingElevation) := by
  constructor
  · intro l hl
    simp [get_base_elevation_from_point, hl]
  · intro l f hhead hne h2d hattrs
    rcases hfl : l.features with _ | ⟨f0, rest⟩
    · rw [hfl] at hhead; exact absurd hhead (by simp)
    · rw [hfl] at hhead
      have hf0 : f0 = f := by simpa using hhead
      subst hf0
      simp [get_base_elevation_from_point, hfl, baseElevationOfFeature, hne, h2d,
        probeAttrs_eq_none _ _ hattrs]

/-- Witness for C6: the empty layer gives the empty-input error; a 2D point
whose only elevation-like field `z` is NULL (and with an unrelated field)
gives the missing-elevation error. -/
theorem c6_error_cases_witness :
    get_base_elevation_from_point ⟨[]⟩ = .error .emptyInput ∧
    get_base_elevation_from_point
      ⟨[⟨⟨false, WkbType.point, 3, 4, FloatVal.nan⟩,
         [("z", none), ("label", some 7)]⟩]⟩ = .error .missingElevation :=
  ⟨c6_error_cases.1 ⟨[]⟩ rfl,
   c6_error_cases.2 _ _ rfl rfl (by decide) (by decide)⟩

/-- `os.path.basename` for POSIX paths: the characters after the last `/`
(applied to the DEM source path at `src/level.py:51`). -/
def pyBasename (p : List Char) : List Char :=
  p.foldl (fun acc c => if c = '/' then [] else acc ++ [c]) []

/-- Split a slash-free name at its last dot, if any: `some (stem, ext)`
with `ext` starting at that dot. -/
def splitAtLastDot : List Char → Option (List Char × List Char)
  | [] => none
  | c :: cs =>
    match splitAtLastDot cs with
    | some (st, ex) => some (c :: st, ex)
    | none => if c = '.' then some ([], '.' :: cs) else none

/-- `os.path.splitext` on a basename: split at the last dot unless every
character before that dot is itself a dot (CPython's leading-dot rule,
under which e.g. `.bashrc` has no extension). -/
def pySplitext (s : List Char) : List Char × List Char :=
  match splitAtLastDot s with
  | none => (s, [])
  | some (st, ex) => if st.all (fun c => c = '.') then (s, []) else (st, ex)

theorem splitAtLastDot_append (s st ex : List Char)
    (h : splitAtLastDot s = some (st, ex)) : st ++ ex = s := by
  induction s generalizing st ex with
  | nil => simp [splitAtLastDot] at h
  | cons c cs ih =>
    rw [splitAtLastDot] at h
    rcases hr : splitAtLastDot cs with _ | ⟨st', ex'⟩ <;> rw [hr] at h
    · by_cases hc : c = '.' <;> simp [hc] at h
      obtain ⟨h1, h2⟩ := h
      simp [← h1, ← h2, hc]
    · simp at h
      obtain ⟨h1, h2⟩ := h
      subst h1; subst h2
      simpa using ih st' ex' hr

/-- The two halves of `pySplitext` rebuild the input. -/
theorem pySplitext_append (s : List Char) :
    (pySplitext s).1 ++ (pySplitext s).2 = s := by
  rw [pySplitext]
  rcases hr : splitAtLastDot s with _ | ⟨st, ex⟩
  · simp
  · by_cases hall : st.all (fun c => c = '.')
    · simp [hall]
    · simp [hall, splitAtLastDot_append s st ex hr]

/-- `dem_name` as computed at `src/level.py:51`:
`os.path.splitext(os.path.basename(dem_path))[0]`. -/
def demNameOf (dem_path : List Char) : List Char :=
  (pySplitext (pyBasename dem_path)).1

/-- The layer@band token written into the raster-calculator expression at
`src/level.py:64`: `f'"{dem_name}.tif@1"'`. -/
def rastercalcRefToken (dem_path : List Char) : List Char :=
  demNameOf dem_path ++ ".tif@1".data

/-- The token that addresses the input DEM's own first band: the DEM
source file's basename, at band 1. -/
def demOwnRefToken (dem_path : List Char) : List Char :=
  pyBasename dem_path ++ "@1".data

/-- C10: the expression's layer token is built by appending the literal
`.tif` to the extension-stripped basename, so it addresses the input DEM's
own first band exactly when the DEM source file's extension is `.tif`; for
every other extension the expression names a different layer. -/
theorem c10_mask_correct_only_for_tif (p : List Char) :
    rastercalcRefToken p = demOwnRefToken p ↔
      (pySplitext (pyBasename p)).2 = ".tif".data := by
  rcases hse : pySplitext (pyBasename p) with ⟨st, ex⟩
  have hB := pySplitext_append (pyBasename p)
  rw [hse] at hB
  dsimp only at hB
  unfold rastercalcRefToken demOwnRefToken demNameOf
  rw [hse]
  dsimp only
  rw [← hB]
  constructor
  · intro h
    have h' : (st ++ ".tif".data) ++ "@1".data = (st ++ ex) ++ "@1".data := by
      rw [List.append_assoc]; exact h
    exact (List.append_cancel_left (List.append_cancel_right h')).symm
  · intro h
    rw [h, List.append_assoc]
    rfl

/-- `os.path.join` for POSIX paths, two arguments (as used at
`src/level.py:46,54,73,88`). -/
def pyJoin (a b : List Char) : List Char :=
  if b.head? = some '/' then b
  else if a = [] ∨ a.getLast? = some '/' then a ++ b
  else a ++ '/' :: b

/-- Python `s.replace(".shp", ext)` (`src/level.py:150`): replace every
non-overlapping occurrence of `.shp`, scanning left to right. -/
def replaceShpExt (ext : List Char) : List Char → List Char
  | '.' :: 's' :: 'h' :: 'p' :: rest => ext ++ replaceShpExt ext rest
  | c :: cs => c :: replaceShpExt ext cs
  | [] => []

/-- An axis-aligned rectangle standing in for a polygon produced by the
vectorise step (the concrete geometry type is irrelevant to the claims;
only the point-in-polygon test matters). -/
structure Rect where
  xmin : ℚ
  xmax : ℚ
  ymin : ℚ
  ymax : ℚ
deriving DecidableEq, Repr

/-- Point-in-rectangle test: the spatial `intersects` predicate between a
candidate polygon and a point geometry. -/
def Rect.containsPt (r : Rect) (x y : ℚ) : Bool :=
  decide (r.xmin ≤ x ∧ x ≤ r.xmax ∧ r.ymin ≤ y ∧ y ≤ r.ymax)

/-- Modelled from the spec (§4.2 step 3 and the QGIS contract of
`native:selectbylocation` with `PREDICATE = [0]`, invoked at
`src/level.py:99-107`): the selection keeps exactly the input polygons
whose geometry intersects some feature of the `INTERSECT` layer.  The
source passes the whole `point_layer` as `INTERSECT`. -/
def selectIntersecting (polys : List Rect) (ptLayer : PointLayer) : List Rect :=
  polys.filter (fun r => ptLayer.features.any (fun f => r.containsPt f.geometry.x f.geometry.y))

/-- Host state the pipeline mutates: the set of files on disk and the
layers registered with the project (`QgsProject.instance()`), both as path
or id lists. -/
structure ProjState where
  files : List (List Char)
  layers : List (List Char)
deriving DecidableEq, Repr

/-- Success flags for the four external `processing.run` operations: each
call either succeeds or raises (spec §4.2: failure is surfaced
immediately, no retry). -/
structure Toolbox where
  rastercalcOk : Bool
  polygonizeOk : Bool
  selectOk : Bool
  saveOk : Bool
deriving DecidableEq, Repr

/-- A failed `processing.run` call, tagged with the operation name. -/
inductive PipeError where
  | toolbox (op : String)
deriving DecidableEq, Repr

/-- What a successful pipeline run returns: the filtered polygon path
(the source's return value, `src/level.py:158`) and the selected polygons
written into it. -/
structure PipeOutput where
  outPath : List Char
  selected : List Rect
deriving DecidableEq, Repr

/-- Pipeline result: final host state plus outcome. -/
structure PipeResult where
  state : ProjState
  outcome : Except PipeError PipeOutput

/-- `level_folder` (`src/level.py:46`). -/
def levelFolder (output_dir lv : List Char) : List Char :=
  pyJoin output_dir ("water_level_".data ++ lv ++ "m".data)

/-- `raster_output` (`src/level.py:54`). -/
def rasterOutputPath (output_dir lv : List Char) : List Char :=
  pyJoin (levelFolder output_dir lv) (lv ++ "_level.tif".data)

/-- `temp_polygon_output` (`src/level.py:73`). -/
def tempPolygonPath (output_dir lv : List Char) : List Char :=
  pyJoin (levelFolder output_dir lv) (lv ++ "_level_polygon_temp.shp".data)

/-- `filtered_polygon_output` (`src/level.py:88`). -/
def filteredPolygonPath (output_dir lv : List Char) : List Char :=
  pyJoin (levelFolder output_dir lv) (lv ++ "_level_polygon.shp".data)

/-- Project id of the temporary polygon layer added at `src/level.py:96`
(named `temp_polygons` at `src/level.py:93`). -/
def tempLayerId : List Char := "temp_polygons".data

/-- Name of the final styled layer added at `src/level.py:122-128`
(`lv` and `baseStr` are the formatted level and base-elevation figures). -/
def waterLevelLayerName (lv baseStr : List Char) : List Char :=
  "Water Level ".data ++ lv ++ "m (Base: ".data ++ baseStr ++ "m)".data

/-- `if os.path.exists(f): os.remove(f)` (`src/level.py:151-152`). -/
def removeFileIfPresent (files : List (List Char)) (p : List Char) : List (List Char) :=
  if p ∈ files then files.filter (fun q => decide (q ≠ p)) else files

/-- The sidecar extension list of `src/level.py:149`. -/
def sidecarExts : List (List Char) := [".shx".data, ".dbf".data, ".prj".data, ".cpg".data]

/-- The cleanup block of `src/level.py:145-152`: if the temporary `.shp`
exists, remove it, then best-effort remove each sidecar obtained by
`temp_polygon_output.replace(".shp", ext)`. -/
def cleanupTempPolygon (files : List (List Char)) (temp : List Char) : List (List Char) :=
  if temp ∈ files then
    let files := files.filter (fun q => decide (q ≠ temp))
    sidecarExts.foldl (fun fs ext => removeFileIfPresent fs (replaceShpExt ext temp)) files
  else files

/-- Modelled from the spec (§4.2 step 2 and §4.2's failure note on sidecar
files): the external `gdal:polygonize` writes the ESRI shapefile and its
`.shx`, `.dbf`, `.prj` sidecars next to it. -/
def polygonizeOutputs (p : List Char) : List (List Char) :=
  [p, replaceShpExt ".shx".data p, replaceShpExt ".dbf".data p, replaceShpExt ".prj".data p]

/-- `create_water_level_polygon` (`src/level.py:26-158`).

Shallow embedding: `tb` fixes which external `processing.run` calls
succeed (a failing call raises and leaves no output, so the remaining
statements never run); `polys` is the polygon dataset the vectorise step
produces (its content is up to the external tool); `lv` and `baseStr` are
the formatted `level` and `base_elevation` figures interpolated into paths
and the layer name; `st` is the host state on entry.  Directory creation,
logging, styling and repaint have no effect on the modelled state and are
omitted. -/
def create_water_level_polygon (tb : Toolbox) (dem_path : List Char)
    (point_layer : PointLayer) (polys : List Rect)
    (lv baseStr output_dir : List Char) (st : ProjState) : PipeResult :=
  let _dem_name := demNameOf dem_path
  let raster_output := rasterOutputPath output_dir lv
  if tb.rastercalcOk = false then
    { state := st, outcome := .error (.toolbox "native:rastercalc") }
  else
    let st1 : ProjState := { st with files := st.files ++ [raster_output] }
    let temp_polygon_output := tempPolygonPath output_dir lv
    if tb.polygonizeOk = false then
      { state := st1, outcome := .error (.toolbox "gdal:polygonize") }
    else
      let st2 : ProjState :=
        { st1 with files := st1.files ++ polygonizeOutputs temp_polygon_output }
      let filtered_polygon_output := filteredPolygonPath output_dir lv
      let st3 : ProjState := { st2 with layers := st2.layers ++ [tempLayerId] }
      if tb.selectOk = false then
        { state := st3, outcome := .error (.toolbox "native:selectbylocation") }
      else
        let selected := selectIntersecting polys point_layer
        if tb.saveOk = false then
          { state := st3, outcome := .error (.toolbox "native:saveselectedfeatures") }
        else
          let st4 : ProjState := { st3 with files := st3.files ++ [filtered_polygon_output] }
          let st5 : ProjState :=
            { st4 with layers := st4.layers.filter (fun q => decide (q ≠ tempLayerId)) }
          let st6 : ProjState := { st5 with layers := st5.layers ++ [waterLevelLayerName lv baseStr] }
          let st7 : ProjState := { st6 with files := cleanupTempPolygon st6.files temp_polygon_output }
          { state := st7, outcome := .ok ⟨filtered_polygon_output, selected⟩ }

/-- Whether a pipeline run succeeded. -/
def pipeOk (r : PipeResult) : Bool :=
  match r.outcome with
  | .ok _ => true
  | .error _ => false

/-- The polygons a successful run wrote into the filtered output. -/
def pipeSelected (r : PipeResult) : Option (List Rect) :=
  match r.outcome with
  | .ok o => some o.selected
  | .error _ => none

/-- Counterexample for C7: with the save stage failing (all earlier stages
succeeding), the run fails but the project's layer set has changed — the
temporary polygon layer added at `src/level.py:96` is never removed on the
failure path, contradicting "the project's set of registered layers is
unchanged on failure". -/
theorem c7_unchanged_layers_cex :
    pipeOk (create_water_level_polygon ⟨true, true, true, false⟩ "dem.tif".data
      ⟨[⟨⟨false, WkbType.pointZ, 0, 0, FloatVal.val 88⟩, []⟩]⟩ []
      "10.0".data "88.9".data "out".data ⟨[], []⟩) = false ∧
    (create_water_level_polygon ⟨true, true, true, false⟩ "dem.tif".data
      ⟨[⟨⟨false, WkbType.pointZ, 0, 0, FloatVal.val 88⟩, []⟩]⟩ []
      "10.0".data "88.9".data "out".data ⟨[], []⟩).state.layers ≠
      (⟨[], []⟩ : ProjState).layers := by
  constructor <;> decide

/-- C7 amended: a failure at any stage skips the remaining stages and never
registers the final water-level layer; the project's layer set is unchanged
when the threshold or vectorise stage fails, but a failure in the
spatial-filter or save stage leaves the temporary polygon layer registered. -/
theorem c7_failure_aborts_amended (tb : Toolbox) (dem_path : List Char)
    (point_layer : PointLayer) (polys : List Rect)
    (lv baseStr output_dir : List Char) (st : ProjState)
    (hfail : pipeOk (create_water_level_polygon tb dem_path point_layer polys
      lv baseStr output_dir st) = false) :
    ((tb.rastercalcOk = false ∨ tb.polygonizeOk = false) →
      (create_water_level_polygon tb dem_path point_layer polys
        lv baseStr output_dir st).state.layers = st.layers) ∧
    (tb.rastercalcOk = true → tb.polygonizeOk = true →
      (create_water_level_polygon tb dem_path point_layer polys
        lv baseStr output_dir st).state.layers = st.layers ++ [tempLayerId]) := by
  obtain ⟨a, b, c, d⟩ := tb
  cases a <;> cases b <;> cases c <;> cases d <;>
    simp [create_water_level_polygon, pipeOk] at hfail ⊢

/-- Witness for C7 amended, both stage groups: a failing threshold stage
leaves the project's one layer untouched, and a failing spatial-filter
stage (threshold and vectorise succeeded) leaves exactly the temporary
polygon layer additionally registered. -/
theorem c7_failure_aborts_amended_witness :
    (create_water_level_polygon ⟨false, true, true, true⟩ "dem.tif".data ⟨[]⟩ []
      "10.0".data "88.9".data "out".data ⟨[], ["base".data]⟩).state.layers
      = ["base".data] ∧
    (create_water_level_polygon ⟨true, true, false, true⟩ "dem.tif".data ⟨[]⟩ []
      "10.0".data "88.9".data "out".data ⟨[], ["base".data]⟩).state.layers
      = ["base".data] ++ [tempLayerId] :=
  ⟨(c7_failure_aborts_amended ⟨false, true, true, true⟩ "dem.tif".data ⟨[]⟩ []
      "10.0".data "88.9".data "out".data ⟨[], ["base".data]⟩ (by decide)).1 (Or.inl rfl),
   (c7_failure_aborts_amended ⟨true, true, false, true⟩ "dem.tif".data ⟨[]⟩ []
      "10.0".data "88.9".data "out".data ⟨[], ["base".data]⟩ (by decide)).2 rfl rfl⟩

/-- Replacing `.shp` by another 4-character extension preserves length. -/
theorem replaceShpExt_length (ext : List Char) (hx : ext.length = 4) :
    ∀ l : List Char, (replaceShpExt ext l).length = l.length := by
  intro l
  induction l using replaceShpExt.induct ext with
  | case1 rest ih => simp [replaceShpExt, hx, ih]; omega
  | case2 c cs hne ih =>
    rw [replaceShpExt]
    · simp [ih]
    · exact hne
  | case3 => rfl

/-- Length of a joined path, by the three `pyJoin` cases. -/
theorem pyJoin_length (a b : List Char) :
    (pyJoin a b).length =
      if b.head? = some '/' then b.length
      else if a = [] ∨ a.getLast? = some '/' then a.length + b.length
      else a.length + 1 + b.length := by
  rw [pyJoin]
  split_ifs
  · rfl
  · simp
  · simp
    omega

/-- Two paths joined under the same folder and level prefix differ in
length exactly as their suffixes do (the suffixes must not start with a
slash, so both joins take the same branch). -/
theorem pyJoin_length_base (a lv s t : List Char)
    (hs : s.head? ≠ some '/') (ht : t.head? ≠ some '/') :
    (pyJoin a (lv ++ s)).length + t.length = (pyJoin a (lv ++ t)).length + s.length := by
  rw [pyJoin_length, pyJoin_length]
  rcases lv with _ | ⟨c, lv'⟩
  · simp only [List.nil_append]
    rw [if_neg hs, if_neg ht]
    split_ifs <;> omega
  · simp only [List.cons_append, List.head?_cons]
    by_cases hc : some c = some '/'
    · rw [if_pos hc, if_pos hc]
      simp [List.length_append]
      omega
    · rw [if_neg hc, if_neg hc]
      split_ifs <;> simp [List.length_append] <;> omega

/-- The existence-guarded removal is plain filtering: when the path is
absent the filter keeps everything. -/
theorem removeFileIfPresent_eq_filter (fs : List (List Char)) (p : List Char) :
    removeFileIfPresent fs p = fs.filter (fun q => decide (q ≠ p)) := by
  rw [removeFileIfPresent]
  split_ifs with h
  · rfl
  · symm
    rw [List.filter_eq_self]
    intro q hq
    simp only [decide_eq_true_eq]
    rintro rfl
    exact h hq

/-- Membership in the file set after the cleanup block, when the temporary
shapefile exists: a path survives iff it was there and is neither the
temporary shapefile nor one of its four sidecar names. -/
theorem mem_cleanupTempPolygon (fs : List (List Char)) (temp x : List Char)
    (htemp : temp ∈ fs) :
    x ∈ cleanupTempPolygon fs temp ↔
      x ∈ fs ∧ x ≠ temp ∧
      x ≠ replaceShpExt ".shx".data temp ∧ x ≠ replaceShpExt ".dbf".data temp ∧
      x ≠ replaceShpExt ".prj".data temp ∧ x ≠ replaceShpExt ".cpg".data temp := by
  rw [cleanupTempPolygon, if_pos htemp]
  simp only [sidecarExts, List.foldl, removeFileIfPresent_eq_filter,
    List.mem_filter, decide_eq_true_eq]
  tauto

/-- Counterexample for C8: a fully successful run on a clean project —
the run succeeds, yet the threshold raster (an intermediate artifact) is
still on disk afterwards: the cleanup block at `src/level.py:145-152` never
removes `raster_output`. -/
theorem c8_raster_survives_cex :
    pipeOk (create_water_level_polygon ⟨true, true, true, true⟩ "dem.tif".data
      ⟨[⟨⟨false, WkbType.pointZ, 0, 0, FloatVal.val 88⟩, []⟩]⟩ []
      "10.0".data "88.9".data "out".data ⟨[], []⟩) = true ∧
    rasterOutputPath "out".data "10.0".data ∈
      (create_water_level_polygon ⟨true, true, true, true⟩ "dem.tif".data
        ⟨[⟨⟨false, WkbType.pointZ, 0, 0, FloatVal.val 88⟩, []⟩]⟩ []
        "10.0".data "88.9".data "out".data ⟨[], []⟩).state.files := by
  constructor <;> decide

/-- C8 amended: after a successful run the unfiltered polygon file and its
four sidecar names are (best-effort) deleted, while the final filtered
polygon file AND the threshold raster are kept. -/
theorem c8_artifact_cleanup_amended (tb : Toolbox) (dem_path : List Char)
    (point_layer : PointLayer) (polys : List Rect)
    (lv baseStr output_dir : List Char) (st : ProjState) (r : PipeResult)
    (hr : create_water_level_polygon tb dem_path point_layer polys lv baseStr output_dir st = r)
    (hok : pipeOk r = true) :
    rasterOutputPath output_dir lv ∈ r.state.files ∧
    filteredPolygonPath output_dir lv ∈ r.state.files ∧
    tempPolygonPath output_dir lv ∉ r.state.files ∧
    replaceShpExt ".shx".data (tempPolygonPath output_dir lv) ∉ r.state.files ∧
    replaceShpExt ".dbf".data (tempPolygonPath output_dir lv) ∉ r.state.files ∧
    replaceShpExt ".prj".data (tempPolygonPath output_dir lv) ∉ r.state.files ∧
    replaceShpExt ".cpg".data (tempPolygonPath output_dir lv) ∉ r.state.files := by
  subst hr
  obtain ⟨a, b, c, d⟩ := tb
  cases a <;> cases b <;> cases c <;> cases d <;>
    try (exfalso; revert hok; simp [create_water_level_polygon, pipeOk]; done)
  have e10 : ("_level.tif".data).length = 10 := by decide
  have e23 : ("_level_polygon_temp.shp".data).length = 23 := by decide
  have e18 : ("_level_polygon.shp".data).length = 18 := by decide
  have h1 := pyJoin_length_base (levelFolder output_dir lv) lv "_level.tif".data
    "_level_polygon_temp.shp".data (by decide) (by decide)
  have h2 := pyJoin_length_base (levelFolder output_dir lv) lv "_level_polygon.shp".data
    "_level_polygon_temp.shp".data (by decide) (by decide)
  rw [e10, e23] at h1
  rw [e18, e23] at h2
  have h1' : (rasterOutputPath output_dir lv).length + 23 =
      (tempPolygonPath output_dir lv).length + 10 := h1
  have h2' : (filteredPolygonPath output_dir lv).length + 23 =
      (tempPolygonPath output_dir lv).length + 18 := h2
  have hne_rt : rasterOutputPath output_dir lv ≠ tempPolygonPath output_dir lv := by
    intro h
    have := congrArg List.length h
    omega
  have hne_ft : filteredPolygonPath output_dir lv ≠ tempPolygonPath output_dir lv := by
    intro h
    have := congrArg List.length h
    omega
  have hrs : ∀ ext : List Char, ext.length = 4 →
      rasterOutputPath output_dir lv ≠ replaceShpExt ext (tempPolygonPath output_dir lv) := by
    intro ext hx h
    have := congrArg List.length h
    rw [replaceShpExt_length ext hx] at this
    omega
  have hfs : ∀ ext : List Char, ext.length = 4 →
      filteredPolygonPath output_dir lv ≠ replaceShpExt ext (tempPolygonPath output_dir lv) := by
    intro ext hx h
    have := congrArg List.length h
    rw [replaceShpExt_length ext hx] at this
    omega
  have hfiles : (create_water_level_polygon ⟨true, true, true, true⟩ dem_path point_layer polys
      lv baseStr output_dir st).state.files =
      cleanupTempPolygon
        (((st.files ++ [rasterOutputPath output_dir lv])
          ++ polygonizeOutputs (tempPolygonPath output_dir lv))
          ++ [filteredPolygonPath output_dir lv])
        (tempPolygonPath output_dir lv) := rfl
  have htemp : tempPolygonPath output_dir lv ∈
      (((st.files ++ [rasterOutputPath output_dir lv])
        ++ polygonizeOutputs (tempPolygonPath output_dir lv))
        ++ [filteredPolygonPath output_dir lv]) := by
    simp [polygonizeOutputs]
  rw [hfiles]
  rw [mem_cleanupTempPolygon _ _ _ htemp, mem_cleanupTempPolygon _ _ _ htemp,
    mem_cleanupTempPolygon _ _ _ htemp, mem_cleanupTempPolygon _ _ _ htemp,
    mem_cleanupTempPolygon _ _ _ htemp, mem_cleanupTempPolygon _ _ _ htemp,
    mem_cleanupTempPolygon _ _ _ htemp]
  refine ⟨⟨by simp, hne_rt, hrs _ (by decide), hrs _ (by decide), hrs _ (by decide),
      hrs _ (by decide)⟩,
    ⟨by simp, hne_ft, hfs _ (by decide), hfs _ (by decide), hfs _ (by decide),
      hfs _ (by decide)⟩, ?_, ?_, ?_, ?_, ?_⟩ <;> simp

/-- Witness for C8 amended: a concrete successful run keeps the raster and
the filtered polygon and leaves no temporary shapefile artifacts. -/
theorem c8_artifact_cleanup_amended_witness :
    rasterOutputPath "out".data "10.0".data ∈
      (create_water_level_polygon ⟨true, true, true, true⟩ "dem.tif".data
        ⟨[⟨⟨false, WkbType.pointZ, 0, 0, FloatVal.val 88⟩, []⟩]⟩ []
        "10.0".data "88.9".data "out".data ⟨[], []⟩).state.files ∧
    filteredPolygonPath "out".data "10.0".data ∈
      (create_water_level_polygon ⟨true, true, true, true⟩ "dem.tif".data
        ⟨[⟨⟨false, WkbType.pointZ, 0, 0, FloatVal.val 88⟩, []⟩]⟩ []
        "10.0".data "88.9".data "out".data ⟨[], []⟩).state.files ∧
    tempPolygonPath "out".data "10.0".data ∉
      (create_water_level_polygon ⟨true, true, true, true⟩ "dem.tif".data
        ⟨[⟨⟨false, WkbType.pointZ, 0, 0, FloatVal.val 88⟩, []⟩]⟩ []
        "10.0".data "88.9".data "out".data ⟨[], []⟩).state.files ∧
    replaceShpExt ".shx".data (tempPolygonPath "out".data "10.0".data) ∉
      (create_water_level_polygon ⟨true, true, true, true⟩ "dem.tif".data
        ⟨[⟨⟨false, WkbType.pointZ, 0, 0, FloatVal.val 88⟩, []⟩]⟩ []
        "10.0".data "88.9".data "out".data ⟨[], []⟩).state.files ∧
    replaceShpExt ".dbf".data (tempPolygonPath "out".data "10.0".data) ∉
      (create_water_level_polygon ⟨true, true, true, true⟩ "dem.tif".data
        ⟨[⟨⟨false, WkbType.pointZ, 0, 0, FloatVal.val 88⟩, []⟩]⟩ []
        "10.0".data "88.9".data "out".data ⟨[], []⟩).state.files ∧
    replaceShpExt ".prj".data (tempPolygonPath "out".data "10.0".data) ∉
      (create_water_level_polygon ⟨true, true, true, true⟩ "dem.tif".data
        ⟨[⟨⟨false, WkbType.pointZ, 0, 0, FloatVal.val 88⟩, []⟩]⟩ []
        "10.0".data "88.9".data "out".data ⟨[], []⟩).state.files ∧
    replaceShpExt ".cpg".data (tempPolygonPath "out".data "10.0".data) ∉
      (create_water_level_polygon ⟨true, true, true, true⟩ "dem.tif".data
        ⟨[⟨⟨false, WkbType.pointZ, 0, 0, FloatVal.val 88⟩, []⟩]⟩ []
        "10.0".data "88.9".data "out".data ⟨[], []⟩).state.files :=
  c8_artifact_cleanup_amended ⟨true, true, true, true⟩ "dem.tif".data
    ⟨[⟨⟨false, WkbType.pointZ, 0, 0, FloatVal.val 88⟩, []⟩]⟩ []
    "10.0".data "88.9".data "out".data ⟨[], []⟩ _ rfl (by decide)

/-- Counterexample for C4: a two-feature point layer whose first feature
sits at (0,0) and second at (10,10), and one candidate polygon around
(10,10).  The successful run selects that polygon — the spatial filter at
`src/level.py:99-107` intersects against the whole `point_layer` — yet the
polygon does not intersect the first feature, the one base-elevation
extraction uses: the two steps do not use the same reference feature. -/
theorem c4_same_feature_cex :
    pipeSelected (create_water_level_polygon ⟨true, true, true, true⟩ "dem.tif".data
      ⟨[⟨⟨false, WkbType.pointZ, 0, 0, FloatVal.val 88⟩, []⟩,
        ⟨⟨false, WkbType.pointZ, 10, 10, FloatVal.val 90⟩, []⟩]⟩ [⟨9, 11, 9, 11⟩]
      "10.0".data "88.9".data "out".data ⟨[], []⟩) = some [⟨9, 11, 9, 11⟩] ∧
    (⟨[⟨⟨false, WkbType.pointZ, 0, 0, FloatVal.val 88⟩, []⟩,
        ⟨⟨false, WkbType.pointZ, 10, 10, FloatVal.val 90⟩, []⟩]⟩ : PointLayer).features.head?
      = some ⟨⟨false, WkbType.pointZ, 0, 0, FloatVal.val 88⟩, []⟩ ∧
    Rect.containsPt ⟨9, 11, 9, 11⟩ 0 0 = false := by
  refine ⟨?_, ?_, ?_⟩ <;> decide

/-- C4 amended: base-elevation extraction uses the first feature while the
spatial filter intersects against the whole point dataset; the two coincide
exactly when the dataset has a single feature — then every successful run
selects precisely the polygons intersecting that feature, and extraction
reads the same feature. -/
theorem c4_same_feature_amended (tb : Toolbox) (dem_path : List Char) (f : Feature)
    (polys : List Rect) (lv baseStr output_dir : List Char) (st : ProjState) (r : PipeResult)
    (hr : create_water_level_polygon tb dem_path ⟨[f]⟩ polys lv baseStr output_dir st = r)
    (hok : pipeOk r = true) :
    pipeSelected r = some (polys.filter (fun p => p.containsPt f.geometry.x f.geometry.y)) ∧
    get_base_elevation_from_point ⟨[f]⟩ = baseElevationOfFeature f := by
  subst hr
  obtain ⟨a, b, c, d⟩ := tb
  cases a <;> cases b <;> cases c <;> cases d <;>
    try (exfalso; revert hok; simp [create_water_level_polygon, pipeOk]; done)
  exact ⟨by simp [create_water_level_polygon, pipeSelected, selectIntersecting], rfl⟩

/-- Witness for C4 amended: a single-feature layer at (5,5) with two
candidate polygons; the run keeps exactly the polygons containing (5,5). -/
theorem c4_same_feature_amended_witness :
    pipeSelected (create_water_level_polygon ⟨true, true, true, true⟩ "dem.tif".data
      ⟨[⟨⟨false, WkbType.pointZ, 5, 5, FloatVal.val 88⟩, []⟩]⟩
      [⟨0, 10, 0, 10⟩, ⟨20, 30, 20, 30⟩]
      "10.0".data "88.9".data "out".data ⟨[], []⟩) =
      some (([⟨0, 10, 0, 10⟩, ⟨20, 30, 20, 30⟩] : List Rect).filter
        (fun p => p.containsPt
          (⟨⟨false, WkbType.pointZ, 5, 5, FloatVal.val 88⟩, []⟩ : Feature).geometry.x
          (⟨⟨false, WkbType.pointZ, 5, 5, FloatVal.val 88⟩, []⟩ : Feature).geometry.y)) ∧
    get_base_elevation_from_point ⟨[⟨⟨false, WkbType.pointZ, 5, 5, FloatVal.val 88⟩, []⟩]⟩ =
      baseElevationOfFeature ⟨⟨false, WkbType.pointZ, 5, 5, FloatVal.val 88⟩, []⟩ :=
  c4_same_feature_amended ⟨true, true, true, true⟩ "dem.tif".data _ _
    "10.0".data "88.9".data "out".data ⟨[], []⟩ _ rfl (by decide)

/-- Attribute values stored by the point creator: the attribute tuple mixes
an integer id, doubles and a string (`src/add_point.py:178-182`). -/
inductive AttrValue where
  | intV (n : ℤ)
  | dblV (q : ℚ)
  | strV (s : String)
deriving DecidableEq, Repr

/-- One feature of the created point layer: the `QgsPoint(x, y, z)`
geometry (`src/add_point.py:200,226`) and the attribute tuple set at
`src/add_point.py:204,230`. -/
structure CreatedFeature where
  x : ℚ
  y : ℚ
  z : ℚ
  attrs : List AttrValue
deriving DecidableEq, Repr

/-- The layer `create_point_layer` returns: name, whether it is the
in-memory ("memory" provider) variant or the shapefile-backed one, the
optional backing file, and its features. -/
structure CreatedLayer where
  name : String
  isMemory : Bool
  sourcePath : Option String
  features : List CreatedFeature
deriving DecidableEq, Repr

/-- `create_point_layer` (`src/add_point.py:160-249`): with an output path
it writes a PointZ shapefile and loads it back; without one it creates a
temporary memory layer.  Either branch puts in exactly one feature with
geometry `QgsPoint(x, y, z)` and attributes `[1, x, y, z, layer_name]`.
(The subsequent registration with the host project, `src/add_point.py:240`,
is outside the returned value.) -/
def create_point_layer (layer_name : String) (x y z : ℚ)
    (output_file_path : Option String) : CreatedLayer :=
  let feature : CreatedFeature :=
    ⟨x, y, z, [.intV 1, .dblV x, .dblV y, .dblV z, .strV layer_name]⟩
  match output_file_path with
  | some path =>
    { name := layer_name, isMemory := false, sourcePath := some path, features := [feature] }
  | none =>
    { name := layer_name, isMemory := true, sourcePath := none, features := [feature] }

/-- C9: the point creator invoked with name `measurement_point`,
x = 641056.0, y = 162787.0, z = 88.86 and no output file yields an
in-memory layer with exactly one feature whose attribute tuple is
`(1, 641056.0, 162787.0, 88.86, "measurement_point")`. -/
theorem c9_point_creator_memory_layer :
    (create_point_layer "measurement_point" 641056 162787 88.86 none).isMemory = true ∧
    (create_point_layer "measurement_point" 641056 162787 88.86 none).features =
      [⟨641056, 162787, 88.86,
        [.intV 1, .dblV 641056, .dblV 162787, .dblV 88.86, .strV "measurement_point"]⟩] := by
  constructor <;> rfl
